import Mathlib

/-!
Shallow embedding of the StratusShell terminal session orchestrator:
`internal/server/terminal.go`, `internal/server/portpool.go`,
`internal/server/gotty_wrapper.go` and the persistence calls of
`internal/db/terminals.go` that the manager performs.

Modelling conventions:
* Mutable Go state becomes explicit state passing (`TMState`, `PortPool`).
* Results of external calls (OS ephemeral-port assignment from `net.Listen`,
  `crypto/rand`, GoTTY backend startup, SQLite writes) are supplied through
  environment records (`SpawnEnv`, `KillEnv`, `LayoutEnv`), one field per
  external call the Go code makes; the Go control flow branching on those
  results is translated verbatim.
* `map[int]*Terminal` becomes a list of `Terminal` with lookup by `id`;
  Go map iteration order is unspecified, the list order stands for one
  fixed enumeration order.
* Errors become an error enumeration mirroring the `fmt.Errorf` sites.
-/

/-- Error taxonomy of the manager, one constructor per distinct error the
Go code returns or logs (terminal.go). -/
inductive TMErr
  | maxTerminalsReached
  | portAllocationFailed
  | credentialGenerationFailed
  | backendStartFailed
  | terminalNotFound
  | persistenceFailed
deriving DecidableEq, Repr

/-- Model of a Go `context.Context` produced by `context.WithCancel`: the
`Done` channel is closed exactly when the cancel function has run. -/
structure GoCtx where
  cancelled : Bool
deriving DecidableEq, Repr

/-- The `Done` channel state: a receive from `ctx.Done()` completes iff the
context has been cancelled. -/
def GoCtx.done (c : GoCtx) : Bool := c.cancelled

/-- Model of the `GoTTYServer` handle (gotty_wrapper.go:14-18): the lifecycle
context created by `context.WithCancel`, and whether the goroutine running
`srv.Run` (gotty_wrapper.go:68-74) has returned, i.e. whether the backend has
relinquished its listener and pty. -/
structure GoTTYServer where
  ctx : GoCtx
  runFinished : Bool
deriving DecidableEq, Repr

/-- `Stop` (gotty_wrapper.go:84-91): calls `g.cancelFunc()`, then receives
from `g.ctx.Done()`, then returns `nil`.  The receive completes because the
cancel itself closed the `Done` channel, so the only state change visible at
return is the cancelled flag; `runFinished` is whatever the concurrently
running `srv.Run` goroutine has made it.  The returned error is always
`nil`. -/
def GoTTYServer.stop (g : GoTTYServer) : Option TMErr × GoTTYServer :=
  let g₁ : GoTTYServer := { g with ctx := { cancelled := true } }
  -- at this point GoCtx.done g₁.ctx = true, so <-ctx.Done() does not block
  (none, g₁)

/-- Port pool state (portpool.go:8-11): the set of ports currently tracked as
in-use, modelled as a duplicate-free list. -/
structure PortPool where
  used : List Nat
deriving DecidableEq, Repr

/-- `AllocateEphemeral` (portpool.go:21-45): `net.Listen("tcp", "localhost:0")`
either fails (osResult = none) or yields an OS-assigned port; the code reads
the port, closes the listener, and marks the port used unconditionally — the
in-use set is not consulted before marking. -/
def PortPool.allocateEphemeral (p : PortPool) (osResult : Option Nat) :
    Option Nat × PortPool :=
  match osResult with
  | none => (none, p)
  | some port =>
      (some port, { used := if port ∈ p.used then p.used else port :: p.used })

/-- `Allocate` (portpool.go:48-50) delegates to `AllocateEphemeral`. -/
def PortPool.allocate (p : PortPool) (osResult : Option Nat) :
    Option Nat × PortPool :=
  p.allocateEphemeral osResult

/-- `Release` (portpool.go:52-56): `delete(p.used, port)`. -/
def PortPool.release (p : PortPool) (port : Nat) : PortPool :=
  { used := p.used.filter (fun q => q != port) }

/-- `IsAllocated` (portpool.go:58-62): `return p.used[port]`. -/
def PortPool.isAllocated (p : PortPool) (port : Nat) : Bool :=
  p.used.contains port

/-- One live session (terminal.go:16-26). -/
structure Terminal where
  id : Nat
  dbid : Nat
  port : Nat
  title : String
  shell : String
  workingDir : String
  credential : String
  gotty : GoTTYServer
  createdAt : Nat
deriving DecidableEq, Repr

/-- The slice of persistence state the manager touches
(internal/db/terminals.go): the `active_terminals` rows written by
`SaveActiveTerminal` / removed by `DeleteActiveTerminal` (rowid, port, title),
and the single `active_layout` row written by `UpdateActiveLayout`. -/
structure DBState where
  sessions : List (Nat × Nat × String)
  layout : Option (String × Nat)
deriving DecidableEq, Repr

/-- Manager state (terminal.go:28-36). -/
structure TMState where
  terminals : List Terminal
  pool : PortPool
  db : DBState
  nextID : Nat
  maxTerminals : Nat
  activeTabID : Nat
deriving DecidableEq, Repr

/-- `NewTerminalManager` (terminal.go:38-47) paired with an empty store. -/
def newTerminalManager : TMState :=
  { terminals := []
    pool := { used := [] }
    db := { sessions := [], layout := none }
    nextID := 1
    maxTerminals := 10
    activeTabID := 0 }

/-- Outcomes of the external calls one `SpawnTerminal` run makes:
the `net.Listen` result inside `AllocateEphemeral`, the `crypto/rand` result
inside `generateCredential`, whether `NewGoTTYServer` succeeds, the
`SaveActiveTerminal` result (rowid, or failure), and `time.Now()`. -/
structure SpawnEnv where
  osPort : Option Nat
  cred : Option String
  backendOk : Bool
  dbSave : Option Nat
  now : Nat
deriving DecidableEq, Repr

/-- All three external acquisition steps of a spawn succeed. -/
def SpawnEnv.succeeds (e : SpawnEnv) : Bool :=
  e.osPort.isSome && e.cred.isSome && e.backendOk

/-- Outcome of the external call one `KillTerminal` run makes: whether
`DeleteActiveTerminal` succeeds (`GoTTYServer.Stop` always returns nil, so
the stop-warning branch of terminal.go:146-148 never fires). -/
structure KillEnv where
  dbDeleteOk : Bool
deriving DecidableEq, Repr

/-- `SpawnTerminal` (terminal.go:61-123), translated branch for branch:
capacity check; `Allocate`; `generateCredential` (release the port on
failure); `NewGoTTYServer` (release the port on failure); assign
`nextID` and advance it; `SaveActiveTerminal` (failure logged, `DBID`
stays 0); register the session; make it the active tab when there is no
active tab or it is the only session. -/
def spawnTerminal (tm : TMState) (title shell workingDir : String)
    (env : SpawnEnv) : Except TMErr Terminal × TMState :=
  if tm.terminals.length ≥ tm.maxTerminals then
    (Except.error TMErr.maxTerminalsReached, tm)
  else
    match tm.pool.allocate env.osPort with
    | (none, pool₁) =>
        (Except.error TMErr.portAllocationFailed, { tm with pool := pool₁ })
    | (some port, pool₁) =>
        match env.cred with
        | none =>
            (Except.error TMErr.credentialGenerationFailed,
              { tm with pool := pool₁.release port })
        | some credential =>
            if env.backendOk then
              let terminalID := tm.nextID
              let saved : Nat × DBState :=
                match env.dbSave with
                | some rowid =>
                    (rowid,
                      { tm.db with
                        sessions := tm.db.sessions ++ [(rowid, port, title)] })
                | none => (0, tm.db)
              let terminal : Terminal :=
                { id := terminalID, dbid := saved.1, port := port,
                  title := title, shell := shell, workingDir := workingDir,
                  credential := credential,
                  gotty := { ctx := { cancelled := false }, runFinished := false },
                  createdAt := env.now }
              let terms := tm.terminals ++ [terminal]
              let active :=
                if tm.activeTabID = 0 ∨ terms.length = 1 then terminalID
                else tm.activeTabID
              (Except.ok terminal,
                { tm with
                  pool := pool₁, db := saved.2,
                  nextID := tm.nextID + 1, terminals := terms,
                  activeTabID := active })
            else
              (Except.error TMErr.backendStartFailed,
                { tm with pool := pool₁.release port })

/-- `KillTerminal` (terminal.go:125-161): not-found check; removal from the
map; active-tab reassignment to the first remaining session in enumeration
order (or 0); `GoTTYServer.Stop` (always nil); `Release` of the port;
`DeleteActiveTerminal` when a db row exists (failure logged). -/
def killTerminal (tm : TMState) (id : Nat) (env : KillEnv) :
    Option TMErr × TMState :=
  match tm.terminals.find? (fun t => t.id == id) with
  | none => (some TMErr.terminalNotFound, tm)
  | some terminal =>
      let terms := tm.terminals.filter (fun t => t.id != id)
      let active :=
        if tm.activeTabID = id then
          match terms with
          | [] => 0
          | t :: _ => t.id
        else tm.activeTabID
      let pool₁ := tm.pool.release terminal.port
      let db₁ :=
        if terminal.dbid > 0 && env.dbDeleteOk then
          { tm.db with
            sessions := tm.db.sessions.filter (fun r => r.1 != terminal.dbid) }
        else tm.db
      (none, { tm with
        terminals := terms, activeTabID := active,
        pool := pool₁, db := db₁ })

/-- `GetTerminals` (terminal.go:163-172): the live sessions in enumeration
order. -/
def getTerminals (tm : TMState) : List Terminal :=
  tm.terminals

/-- `GetTerminal` (terminal.go:174-179). -/
def getTerminal (tm : TMState) (id : Nat) : Option Terminal :=
  tm.terminals.find? (fun t => t.id == id)

/-- `GetActiveTabID` (terminal.go:181-185). -/
def getActiveTabID (tm : TMState) : Nat :=
  tm.activeTabID

/-- `SetActiveTabID` (terminal.go:187-191): a direct setter, no validation
that `id` is live. -/
def setActiveTabID (tm : TMState) (id : Nat) : TMState :=
  { tm with activeTabID := id }

/-- `GetNextID` (terminal.go:193-197). -/
def getNextID (tm : TMState) : Nat :=
  tm.nextID

/-- The kill loops of `Shutdown` (terminal.go:207-212) and of `ApplyLayout`
(terminal.go:235-240): call `KillTerminal` on each snapshotted session, log
the error if any and continue.  The returned list is the log of errors
produced; the callers discard it (`log.Printf`). The counter indexes the
per-iteration `KillEnv`. -/
def killLoop (envs : Nat → KillEnv) :
    List Terminal → Nat → TMState → List TMErr × TMState
  | [], _, tm => ([], tm)
  | t :: rest, i, tm =>
      match killTerminal tm t.id (envs i) with
      | (some e, tm') =>
          let r := killLoop envs rest (i + 1) tm'
          (e :: r.1, r.2)
      | (none, tm') => killLoop envs rest (i + 1) tm'

/-- `Shutdown` (terminal.go:199-215): snapshot all live sessions, kill each,
logging (not returning) individual errors; always returns nil. -/
def shutdown (tm : TMState) (envs : Nat → KillEnv) : Option TMErr × TMState :=
  (none, (killLoop envs tm.terminals 0 tm).2)

/-- `getTerminalCountForLayout` (terminal.go:251-262). -/
def getTerminalCountForLayout (layoutType : String) : Nat :=
  if layoutType = "horizontal" then 2
  else if layoutType = "vertical" then 2
  else if layoutType = "grid" then 4
  else 2

/-- The spawn loop of `ApplyLayout` (terminal.go:221-232):
`for i := currentCount; i < targetCount; i++` spawning
`"Terminal <i+1>"` with shell `/bin/bash`, returning the first spawn error.
Written with the remaining iteration count as fuel; the caller passes
`targetCount - currentCount`, making it exactly the Go loop. -/
def spawnLoop (envs : Nat → SpawnEnv) :
    Nat → Nat → TMState → Option TMErr × TMState
  | 0, _, tm => (none, tm)
  | d + 1, i, tm =>
      match spawnTerminal tm ("Terminal " ++ toString (i + 1)) "/bin/bash" ""
          (envs i) with
      | (Except.error e, tm') => (some e, tm')
      | (Except.ok _, tm') => spawnLoop envs d (i + 1) tm'

/-- `UpdateActiveLayout` (terminal.go:243-246, db/terminals.go:79-85): on
success the single layout row becomes (layoutType, count); on failure
`ApplyLayout` returns the wrapped error. -/
def updateLayoutDB (tm : TMState) (layoutType : String) (count : Nat)
    (ok : Bool) : Option TMErr × TMState :=
  if ok then
    (none, { tm with db := { tm.db with layout := some (layoutType, count) } })
  else (some TMErr.persistenceFailed, tm)

/-- Outcomes of the external calls one `ApplyLayout` run makes: a `SpawnEnv`
per spawn-loop index, a `KillEnv` per kill-loop index, and the
`UpdateActiveLayout` result. -/
structure LayoutEnv where
  spawnEnvs : Nat → SpawnEnv
  killEnvs : Nat → KillEnv
  dbLayoutOk : Bool

/-- The body of `ApplyLayout` (terminal.go:217-249) with the result of the
`GetTerminals()` call at line 235 abstracted as `snapshot`.  The manager
lock is not held across `ApplyLayout`, so by the time the kill loop runs the
snapshot may lag the live map; `applyLayout` below is the interference-free
instance where the snapshot is exactly the live set. -/
def applyLayoutAux (tm : TMState) (layoutType : String)
    (snapshot : List Terminal) (env : LayoutEnv) : Option TMErr × TMState :=
  let targetCount := getTerminalCountForLayout layoutType
  let currentCount := tm.terminals.length
  if targetCount > currentCount then
    match spawnLoop env.spawnEnvs (targetCount - currentCount) currentCount tm with
    | (some e, tm') => (some e, tm')
    | (none, tm₁) => updateLayoutDB tm₁ layoutType targetCount env.dbLayoutOk
  else if targetCount < currentCount then
    let tm₁ :=
      (killLoop env.killEnvs (snapshot.drop targetCount) targetCount tm).2
    updateLayoutDB tm₁ layoutType targetCount env.dbLayoutOk
  else
    updateLayoutDB tm layoutType targetCount env.dbLayoutOk

/-- `ApplyLayout` (terminal.go:217-249), interference-free: the kill loop's
snapshot is the live set at entry. -/
def applyLayout (tm : TMState) (layoutType : String) (env : LayoutEnv) :
    Option TMErr × TMState :=
  applyLayoutAux tm layoutType (getTerminals tm) env

/-- Backend-exit path (gotty_wrapper.go:68-74): when `srv.Run` returns
(the backend terminated and released its listener and pty), the goroutine
started by `NewGoTTYServer` logs when appropriate and returns.  It holds no
reference to the `TerminalManager` or the `PortPool`, so the only state it
can change is the handle's own run status: the session map, the pool and the
store are untouched. -/
def onBackendExit (tm : TMState) (id : Nat) : TMState :=
  { tm with
    terminals := tm.terminals.map (fun t =>
      if t.id == id then { t with gotty := { t.gotty with runFinished := true } }
      else t) }

/-- The active-tab wellformedness condition of the spec's data model: the
active tab is 0 or the id of a live session. -/
def activeTabValid (tm : TMState) : Bool :=
  tm.activeTabID == 0 || tm.terminals.any (fun t => t.id == tm.activeTabID)

/-- The session record `SpawnTerminal` registers on a fully successful run
with port `p`, credential `c`, store result `ds` and clock value `nw`:
its id is the manager's next id, its `DBID` is the saved rowid (0 when the
save failed). -/
def spawnedTerminal (tm : TMState) (title shell workingDir : String)
    (p : Nat) (c : String) (ds : Option Nat) (nw : Nat) : Terminal :=
  { id := tm.nextID, dbid := ds.getD 0, port := p, title := title,
    shell := shell, workingDir := workingDir, credential := c,
    gotty := { ctx := { cancelled := false }, runFinished := false },
    createdAt := nw }

/-- The store state after `SaveActiveTerminal` on a successful spawn: a new
row on success, unchanged on failure (which is only logged). -/
def spawnedDB (db : DBState) (title : String) (p : Nat) (ds : Option Nat) : DBState :=
  match ds with
  | some rowid => { db with sessions := db.sessions ++ [(rowid, p, title)] }
  | none => db

/-! Concrete states used by witnesses and counterexamples. -/

/-- A freshly started backend handle: not cancelled, still running. -/
def gottyW : GoTTYServer := { ctx := { cancelled := false }, runFinished := false }

/-- A concrete live session. -/
def term1 : Terminal :=
  { id := 1, dbid := 4, port := 7000, title := "Terminal 1", shell := "/bin/bash",
    workingDir := "", credential := "term:pw1", gotty := gottyW, createdAt := 0 }

/-- A manager with exactly one live session, `term1`. -/
def tmOneSession : TMState :=
  { terminals := [term1]
    pool := { used := [7000] }
    db := { sessions := [(4, 7000, "Terminal 1")], layout := none }
    nextID := 2
    maxTerminals := 10
    activeTabID := 1 }

/-- The i-th of ten live sessions filling a manager to capacity. -/
def capTerminal (i : Nat) : Terminal :=
  { id := i + 1, dbid := 0, port := 7000 + i, title := "Terminal", shell := "/bin/bash",
    workingDir := "", credential := "term:pw", gotty := gottyW, createdAt := 0 }

/-- A manager at its default capacity limit: ten live sessions. -/
def tmAtCapacity : TMState :=
  { terminals := (List.range 10).map capTerminal
    pool := { used := (List.range 10).map (fun i => 7000 + i) }
    db := { sessions := [], layout := none }
    nextID := 11
    maxTerminals := 10
    activeTabID := 1 }

/-- A spawn environment in which every external acquisition would succeed. -/
def envOkW : SpawnEnv :=
  { osPort := some 8000, cred := some "term:pw9", backendOk := true,
    dbSave := some 9, now := 0 }

/-- A kill environment in which the store delete succeeds. -/
def kEnvW : KillEnv := { dbDeleteOk := true }

/-- A layout environment in which every spawn, kill and store write would
succeed. -/
def layoutEnvW : LayoutEnv :=
  { spawnEnvs := fun i =>
      { osPort := some (7100 + i), cred := some "term:pwl",
        backendOk := true, dbSave := some (100 + i), now := 0 },
    killEnvs := fun _ => { dbDeleteOk := true },
    dbLayoutOk := true }

/-- A session with id `i` on port `p`, used to build concrete managers. -/
def termOf (i p : Nat) : Terminal :=
  { id := i, dbid := 0, port := p, title := "Terminal", shell := "/bin/bash",
    workingDir := "", credential := "term:pw", gotty := gottyW, createdAt := 0 }

/-- A manager with three live sessions (ids 1, 2 and 4).  Session 3 existed
earlier and has been killed by a concurrent caller. -/
def tmThree : TMState :=
  { terminals := [termOf 1 7001, termOf 2 7002, termOf 4 7004]
    pool := { used := [7001, 7002, 7004] }
    db := { sessions := [], layout := none }
    nextID := 5
    maxTerminals := 10
    activeTabID := 1 }

/-- A `GetTerminals()` snapshot of `tmThree` taken while session 3 was still
live: the manager lock is not held across `ApplyLayout`, so its kill loop
can run against such a stale snapshot. -/
def snapStale : List Terminal := [termOf 1 7001, termOf 2 7002, termOf 3 7003]

/-! Claim theorems. -/

/-- C1: when the live-session count already equals the capacity limit,
`SpawnTerminal` returns `MaxTerminalsReached` and changes nothing: no port is
allocated, no credential generated, no backend started, and the live count
stays at the limit. -/
theorem spawnTerminal_at_capacity (tm : TMState) (title shell workingDir : String)
    (env : SpawnEnv) (h : tm.terminals.length = tm.maxTerminals) :
    spawnTerminal tm title shell workingDir env =
      (Except.error TMErr.maxTerminalsReached, tm) ∧
    (spawnTerminal tm title shell workingDir env).2.terminals.length =
      tm.maxTerminals := by
  have hge : tm.terminals.length ≥ tm.maxTerminals := le_of_eq h.symm
  constructor
  · unfold spawnTerminal
    rw [if_pos hge]
  · unfold spawnTerminal
    rw [if_pos hge]
    exact h

/-- C1 witness: a manager holding ten sessions at the default limit of ten
rejects a spawn even though every external resource would be available. -/
theorem spawnTerminal_at_capacity_witness :
    tmAtCapacity.terminals.length = tmAtCapacity.maxTerminals ∧
    (spawnTerminal tmAtCapacity "extra" "/bin/bash" "" envOkW =
        (Except.error TMErr.maxTerminalsReached, tmAtCapacity) ∧
      (spawnTerminal tmAtCapacity "extra" "/bin/bash" "" envOkW).2.terminals.length =
        tmAtCapacity.maxTerminals) :=
  ⟨by decide, spawnTerminal_at_capacity tmAtCapacity "extra" "/bin/bash" "" envOkW (by decide)⟩

/-- C4 counterexample: `AllocateEphemeral` marks the OS-assigned port used
without consulting the in-use set, so when the OS assigns a port that is
still tracked (possible: the tracked backend may not hold the OS-level bind,
e.g. before it binds or after it died), `Allocate` returns a port that was
in-use at the moment of allocation. -/
theorem allocate_returns_tracked_port_cex :
    PortPool.isAllocated { used := [5000] } 5000 = true ∧
    (PortPool.allocate { used := [5000] } (some 5000)).1 = some 5000 := by
  decide

/-- C4 amended: provided the OS-assigned port is not currently tracked,
`Allocate` returns a port absent from the in-use set and present immediately
after; `Release` removes a port unconditionally, changes no other port, and
is a no-op on a port not currently tracked. -/
theorem portPool_alloc_release_spec (pool : PortPool) (p q r u : Nat)
    (hp : pool.isAllocated p = false) (hr : r ≠ q)
    (hu : pool.isAllocated u = false) :
    (pool.allocate (some p)).1 = some p ∧
    (pool.allocate (some p)).2.isAllocated p = true ∧
    (pool.release q).isAllocated q = false ∧
    (pool.release q).isAllocated r = pool.isAllocated r ∧
    pool.release u = pool := by
  have hpmem : p ∉ pool.used := by
    intro hm
    have : pool.used.contains p = true := List.elem_eq_true_of_mem hm
    rw [PortPool.isAllocated] at hp
    rw [hp] at this
    exact Bool.false_ne_true this
  have humem : u ∉ pool.used := by
    intro hm
    have : pool.used.contains u = true := List.elem_eq_true_of_mem hm
    rw [PortPool.isAllocated] at hu
    rw [hu] at this
    exact Bool.false_ne_true this
  refine ⟨rfl, ?_, ?_, ?_, ?_⟩
  · simp [PortPool.allocate, PortPool.allocateEphemeral, PortPool.isAllocated,
      if_neg hpmem, List.contains, List.elem_eq_mem]
  · simp [PortPool.release, PortPool.isAllocated, List.contains, List.elem_eq_mem,
      List.mem_filter]
  · simp [PortPool.release, PortPool.isAllocated, List.contains, List.elem_eq_mem,
      List.mem_filter, hr]
  · have : pool.used.filter (fun x => x != u) = pool.used := by
      apply List.filter_eq_self.mpr
      intro a ha
      simp only [bne_iff_ne, ne_eq, decide_eq_true_eq]
      intro hau
      exact humem (hau ▸ ha)
    simp [PortPool.release, this]

/-- C4 amended witness: port 5001 is untracked, gets allocated and tracked;
releasing 6000 removes it and leaves 7000 alone; releasing the untracked
5002 is a no-op. -/
theorem portPool_alloc_release_spec_witness :
    PortPool.isAllocated { used := [6000, 7000] } 5001 = false ∧
    (7000 : Nat) ≠ 6000 ∧
    PortPool.isAllocated { used := [6000, 7000] } 5002 = false ∧
    ((PortPool.allocate { used := [6000, 7000] } (some 5001)).1 = some 5001 ∧
      (PortPool.allocate { used := [6000, 7000] } (some 5001)).2.isAllocated 5001 = true ∧
      (PortPool.release { used := [6000, 7000] } 6000).isAllocated 6000 = false ∧
      (PortPool.release { used := [6000, 7000] } 6000).isAllocated 7000 =
        PortPool.isAllocated { used := [6000, 7000] } 7000 ∧
      PortPool.release { used := [6000, 7000] } 5002 = { used := [6000, 7000] }) :=
  ⟨by decide, by decide, by decide,
    portPool_alloc_release_spec { used := [6000, 7000] } 5001 6000 7000 5002
      (by decide) (by decide) (by decide)⟩

/-- C9 counterexample: `Stop` on a backend that has not yet relinquished its
listener and pty returns (with nil error) while the backend is still
running: the wait `<-g.ctx.Done()` completes because `cancelFunc` itself
closed the channel, not because `srv.Run` returned. -/
theorem stop_returns_before_run_finished_cex :
    (GoTTYServer.stop { ctx := { cancelled := false }, runFinished := false }).1 = none ∧
    (GoTTYServer.stop { ctx := { cancelled := false }, runFinished := false }).2.runFinished
      = false := by
  decide

/-- C9 amended: `Stop` signals cooperative cancellation and returns as soon
as the cancellation signal itself is delivered (the context's done channel,
closed by the cancel), without waiting for the backend to relinquish its
listener and pty: the run status at return is whatever it already was. -/
theorem stop_cancels_without_waiting (g : GoTTYServer) :
    (GoTTYServer.stop g).1 = none ∧
    (GoTTYServer.stop g).2.ctx.done = true ∧
    (GoTTYServer.stop g).2.runFinished = g.runFinished := by
  exact ⟨rfl, rfl, rfl⟩

/-- C7 counterexample: after the backend of the (sole) live session
terminates on its own, the session is still in the live map and its port is
still tracked: the goroutine that observed `srv.Run` return only logs. -/
theorem backend_exit_not_reconciled_cex :
    ((onBackendExit tmOneSession 1).terminals.any (fun t => t.id == 1)) = true ∧
    (onBackendExit tmOneSession 1).pool.isAllocated 7000 = true ∧
    (onBackendExit tmOneSession 1).db.sessions = tmOneSession.db.sessions := by
  decide

/-- C7 amended: the Manager has no crash-reconciliation path: a backend
terminating without `KillTerminal` changes no manager bookkeeping — the
session stays in the live map, its port stays tracked, and (as the claim
said) the persisted record is not deleted; cleanup happens only through a
later explicit `KillTerminal` or `Shutdown`. -/
theorem onBackendExit_leaves_manager_state (tm : TMState) (id : Nat) :
    (onBackendExit tm id).terminals.map Terminal.id = tm.terminals.map Terminal.id ∧
    (onBackendExit tm id).pool = tm.pool ∧
    (onBackendExit tm id).db = tm.db ∧
    (onBackendExit tm id).activeTabID = tm.activeTabID := by
  refine ⟨?_, rfl, rfl, rfl⟩
  simp only [onBackendExit, List.map_map]
  apply List.map_congr_left
  intro t _
  show (if (t.id == id) = true then
      { t with gotty := { t.gotty with runFinished := true } } else t).id = t.id
  split <;> rfl

/-- Releasing the port that `Allocate` just marked used leaves it
untracked. -/
theorem release_after_mark_self (pool : PortPool) (p : Nat) :
    (((pool.allocate (some p)).2).release p).isAllocated p = false := by
  simp [PortPool.allocate, PortPool.allocateEphemeral, PortPool.release,
    PortPool.isAllocated, List.contains, List.elem_eq_mem, List.mem_filter]

/-- Releasing the port that `Allocate` just marked used leaves every other
port tracked exactly as before the allocation. -/
theorem release_after_mark_other (pool : PortPool) (p q : Nat) (h : q ≠ p) :
    (((pool.allocate (some p)).2).release p).isAllocated q = pool.isAllocated q := by
  by_cases hp : p ∈ pool.used <;>
    simp [PortPool.allocate, PortPool.allocateEphemeral, PortPool.release,
      PortPool.isAllocated, List.contains, List.elem_eq_mem, List.mem_filter, hp, h]

/-- C2: once a port has been allocated, a credential-generation failure or a
backend-start failure makes `SpawnTerminal` return that error having
released exactly the allocated port: no session is registered, the next-ID
counter does not advance, the store and the active tab are untouched, the
allocated port is no longer tracked, and any other port's tracking is
unchanged (the credential is not a tracked resource, so nothing is reclaimed
for it). -/
theorem spawnTerminal_rollback_on_failure (tm : TMState)
    (title shell workingDir : String) (env : SpawnEnv) (p q : Nat)
    (hl : tm.terminals.length < tm.maxTerminals)
    (hp : env.osPort = some p)
    (hfail : env.cred = none ∨ env.backendOk = false)
    (hq : q ≠ p) :
    ((spawnTerminal tm title shell workingDir env).1 =
        Except.error TMErr.credentialGenerationFailed ∨
      (spawnTerminal tm title shell workingDir env).1 =
        Except.error TMErr.backendStartFailed) ∧
    (spawnTerminal tm title shell workingDir env).2.terminals = tm.terminals ∧
    (spawnTerminal tm title shell workingDir env).2.nextID = tm.nextID ∧
    (spawnTerminal tm title shell workingDir env).2.db = tm.db ∧
    (spawnTerminal tm title shell workingDir env).2.activeTabID = tm.activeTabID ∧
    (spawnTerminal tm title shell workingDir env).2.pool.isAllocated p = false ∧
    (spawnTerminal tm title shell workingDir env).2.pool.isAllocated q =
      tm.pool.isAllocated q := by
  have hcap : ¬ tm.terminals.length ≥ tm.maxTerminals := Nat.not_le.mpr hl
  obtain ⟨op, cr, bo, ds, nw⟩ := env
  have hp' : op = some p := hp
  subst hp'
  rcases hfail with hc | hb
  · have hc' : cr = none := hc
    subst hc'
    have hred : spawnTerminal tm title shell workingDir ⟨some p, none, bo, ds, nw⟩ =
        (Except.error TMErr.credentialGenerationFailed,
          { tm with pool := ((tm.pool.allocate (some p)).2).release p }) := by
      unfold spawnTerminal
      rw [if_neg hcap]
      rfl
    rw [hred]
    exact ⟨Or.inl rfl, rfl, rfl, rfl, rfl,
      release_after_mark_self tm.pool p, release_after_mark_other tm.pool p q hq⟩
  · have hb' : bo = false := hb
    subst hb'
    cases cr with
    | none =>
        have hred : spawnTerminal tm title shell workingDir ⟨some p, none, false, ds, nw⟩ =
            (Except.error TMErr.credentialGenerationFailed,
              { tm with pool := ((tm.pool.allocate (some p)).2).release p }) := by
          unfold spawnTerminal
          rw [if_neg hcap]
          rfl
        rw [hred]
        exact ⟨Or.inl rfl, rfl, rfl, rfl, rfl,
          release_after_mark_self tm.pool p, release_after_mark_other tm.pool p q hq⟩
    | some c =>
        have hred : spawnTerminal tm title shell workingDir ⟨some p, some c, false, ds, nw⟩ =
            (Except.error TMErr.backendStartFailed,
              { tm with pool := ((tm.pool.allocate (some p)).2).release p }) := by
          unfold spawnTerminal
          rw [if_neg hcap]
          rfl
        rw [hred]
        exact ⟨Or.inr rfl, rfl, rfl, rfl, rfl,
          release_after_mark_self tm.pool p, release_after_mark_other tm.pool p q hq⟩

/-- C2 witness: a manager with one live session, a successful allocation of
port 8000 and a failing credential source: the error is returned, nothing is
registered, port 8000 is untracked again and port 7000 is still tracked. -/
theorem spawnTerminal_rollback_on_failure_witness :
    tmOneSession.terminals.length < tmOneSession.maxTerminals ∧
    (((spawnTerminal tmOneSession "t" "/bin/bash" ""
          { osPort := some 8000, cred := none, backendOk := true,
            dbSave := some 9, now := 0 }).1 =
        Except.error TMErr.credentialGenerationFailed ∨
      (spawnTerminal tmOneSession "t" "/bin/bash" ""
          { osPort := some 8000, cred := none, backendOk := true,
            dbSave := some 9, now := 0 }).1 =
        Except.error TMErr.backendStartFailed) ∧
    (spawnTerminal tmOneSession "t" "/bin/bash" ""
        { osPort := some 8000, cred := none, backendOk := true,
          dbSave := some 9, now := 0 }).2.terminals = tmOneSession.terminals ∧
    (spawnTerminal tmOneSession "t" "/bin/bash" ""
        { osPort := some 8000, cred := none, backendOk := true,
          dbSave := some 9, now := 0 }).2.nextID = tmOneSession.nextID ∧
    (spawnTerminal tmOneSession "t" "/bin/bash" ""
        { osPort := some 8000, cred := none, backendOk := true,
          dbSave := some 9, now := 0 }).2.db = tmOneSession.db ∧
    (spawnTerminal tmOneSession "t" "/bin/bash" ""
        { osPort := some 8000, cred := none, backendOk := true,
          dbSave := some 9, now := 0 }).2.activeTabID = tmOneSession.activeTabID ∧
    (spawnTerminal tmOneSession "t" "/bin/bash" ""
        { osPort := some 8000, cred := none, backendOk := true,
          dbSave := some 9, now := 0 }).2.pool.isAllocated 8000 = false ∧
    (spawnTerminal tmOneSession "t" "/bin/bash" ""
        { osPort := some 8000, cred := none, backendOk := true,
          dbSave := some 9, now := 0 }).2.pool.isAllocated 7000 =
      tmOneSession.pool.isAllocated 7000) :=
  ⟨by decide,
    spawnTerminal_rollback_on_failure tmOneSession "t" "/bin/bash" ""
      { osPort := some 8000, cred := none, backendOk := true,
        dbSave := some 9, now := 0 } 8000 7000
      (by decide) (by decide) (Or.inl (by decide)) (by decide)⟩

/-- C3: `KillTerminal` on an unregistered id returns `TerminalNotFound` and
changes nothing; on a registered id it returns no error, the id is afterwards
absent from `GetTerminals()`, and the session's former port is no longer
tracked as in-use. -/
theorem killTerminal_spec (tm : TMState) (id : Nat) (env : KillEnv) :
    (getTerminal tm id = none →
      killTerminal tm id env = (some TMErr.terminalNotFound, tm)) ∧
    (∀ t, getTerminal tm id = some t →
      (killTerminal tm id env).1 = none ∧
      ((getTerminals (killTerminal tm id env).2).all (fun u => u.id != id)) = true ∧
      (killTerminal tm id env).2.pool.isAllocated t.port = false) := by
  constructor
  · intro h
    have h' : tm.terminals.find? (fun t => t.id == id) = none := h
    unfold killTerminal
    rw [h']
  · intro t ht
    have ht' : tm.terminals.find? (fun t => t.id == id) = some t := ht
    unfold killTerminal
    rw [ht']
    refine ⟨rfl, ?_, ?_⟩
    · show ((tm.terminals.filter (fun u => u.id != id)).all (fun u => u.id != id)) = true
      rw [List.all_eq_true]
      intro u hu
      exact (List.mem_filter.mp hu).2
    · show ((tm.pool.release t.port).isAllocated t.port) = false
      simp [PortPool.release, PortPool.isAllocated, List.contains, List.elem_eq_mem,
        List.mem_filter]

/-- C3 witness: killing the unknown id 3 is a no-op returning
`TerminalNotFound`; killing the registered id 1 succeeds, removes it from the
live set and untracks its port 7000. -/
theorem killTerminal_spec_witness :
    killTerminal tmOneSession 3 kEnvW = (some TMErr.terminalNotFound, tmOneSession) ∧
    ((killTerminal tmOneSession 1 kEnvW).1 = none ∧
      ((getTerminals (killTerminal tmOneSession 1 kEnvW).2).all (fun u => u.id != 1)) = true ∧
      (killTerminal tmOneSession 1 kEnvW).2.pool.isAllocated term1.port = false) :=
  ⟨(killTerminal_spec tmOneSession 3 kEnvW).1 (by decide),
    (killTerminal_spec tmOneSession 1 kEnvW).2 term1 (by decide)⟩

/-- Reduction of `killTerminal` when the id is registered. -/
theorem killTerminal_found (tm : TMState) (id : Nat) (env : KillEnv) (t : Terminal)
    (ht : tm.terminals.find? (fun u => u.id == id) = some t) :
    killTerminal tm id env =
      (none, { tm with
        terminals := tm.terminals.filter (fun u => u.id != id),
        activeTabID :=
          if tm.activeTabID = id then
            match tm.terminals.filter (fun u => u.id != id) with
            | [] => 0
            | u :: _ => u.id
          else tm.activeTabID,
        pool := tm.pool.release t.port,
        db := if t.dbid > 0 && env.dbDeleteOk then
            { tm.db with
              sessions := tm.db.sessions.filter (fun r => r.1 != t.dbid) }
          else tm.db }) := by
  unfold killTerminal
  rw [ht]

/-- `KillTerminal` preserves the active-tab wellformedness condition: the
reassignment picks a remaining session (or 0 when none remain). -/
theorem killTerminal_preserves_activeTabValid (tm : TMState) (id : Nat)
    (env : KillEnv) (h : activeTabValid tm = true) :
    activeTabValid (killTerminal tm id env).2 = true := by
  cases hf : tm.terminals.find? (fun u => u.id == id) with
  | none =>
      unfold killTerminal
      rw [hf]
      exact h
  | some t =>
      rw [killTerminal_found tm id env t hf]
      unfold activeTabValid at h ⊢
      by_cases ha : tm.activeTabID = id
      · rw [if_pos ha]
        cases hft : tm.terminals.filter (fun u => u.id != id) with
        | nil => simp
        | cons u rest => simp
      · rw [if_neg ha]
        rcases (Bool.or_eq_true _ _).mp h with h0 | hany
        · simp [h0]
        · obtain ⟨u, hu, hid⟩ := List.any_eq_true.mp hany
          have huid : u.id = tm.activeTabID := by
            simpa using hid
          have humem : u ∈ tm.terminals.filter (fun v => v.id != id) := by
            rw [List.mem_filter]
            refine ⟨hu, ?_⟩
            simp only [bne_iff_ne, ne_eq]
            rw [huid]
            exact ha
          have : (tm.terminals.filter (fun v => v.id != id)).any
              (fun v => v.id == tm.activeTabID) = true := by
            rw [List.any_eq_true]
            exact ⟨u, humem, hid⟩
          simp [this]

/-- Reduction of `spawnTerminal` when below capacity and every external
acquisition succeeds. -/
theorem spawnTerminal_success_eq (tm : TMState) (title shell workingDir : String)
    (p : Nat) (c : String) (ds : Option Nat) (nw : Nat)
    (hl : tm.terminals.length < tm.maxTerminals) :
    spawnTerminal tm title shell workingDir
        { osPort := some p, cred := some c, backendOk := true, dbSave := ds, now := nw } =
      (Except.ok (spawnedTerminal tm title shell workingDir p c ds nw),
        { tm with
          pool := (tm.pool.allocate (some p)).2,
          db := spawnedDB tm.db title p ds,
          nextID := tm.nextID + 1,
          terminals := tm.terminals ++ [spawnedTerminal tm title shell workingDir p c ds nw],
          activeTabID :=
            if tm.activeTabID = 0 ∨
                (tm.terminals ++ [spawnedTerminal tm title shell workingDir p c ds nw]).length = 1
            then tm.nextID else tm.activeTabID }) := by
  unfold spawnTerminal
  rw [if_neg (Nat.not_le.mpr hl)]
  cases ds <;> rfl

/-- `SpawnTerminal` preserves the active-tab wellformedness condition: when
the active tab changes it becomes the id of the session just registered. -/
theorem spawnTerminal_preserves_activeTabValid (tm : TMState)
    (title shell workingDir : String) (env : SpawnEnv)
    (h : activeTabValid tm = true) :
    activeTabValid (spawnTerminal tm title shell workingDir env).2 = true := by
  by_cases hcap : tm.terminals.length ≥ tm.maxTerminals
  · unfold spawnTerminal
    rw [if_pos hcap]
    exact h
  · obtain ⟨op, cr, bo, ds, nw⟩ := env
    cases op with
    | none =>
        unfold spawnTerminal
        rw [if_neg hcap]
        exact h
    | some p =>
        cases cr with
        | none =>
            unfold spawnTerminal
            rw [if_neg hcap]
            exact h
        | some c =>
            cases bo with
            | false =>
                unfold spawnTerminal
                rw [if_neg hcap]
                exact h
            | true =>
                rw [spawnTerminal_success_eq tm title shell workingDir p c ds nw
                  (Nat.not_le.mp hcap)]
                unfold activeTabValid at h ⊢
                by_cases hc : tm.activeTabID = 0 ∨
                    (tm.terminals ++
                      [spawnedTerminal tm title shell workingDir p c ds nw]).length = 1
                · rw [if_pos hc]
                  simp [List.any_append, spawnedTerminal]
                · rw [if_neg hc]
                  push_neg at hc
                  have h0 : (tm.activeTabID == 0) = false := by
                    simp [hc.1]
                  rw [h0, Bool.false_or] at h
                  simp [List.any_append, h]

/-- The kill loop preserves the active-tab wellformedness condition. -/
theorem killLoop_preserves_activeTabValid (envs : Nat → KillEnv) :
    ∀ (ts : List Terminal) (i : Nat) (tm : TMState),
      activeTabValid tm = true →
      activeTabValid (killLoop envs ts i tm).2 = true := by
  intro ts
  induction ts with
  | nil => intro i tm h; exact h
  | cons t rest ih =>
      intro i tm h
      rcases hk : killTerminal tm t.id (envs i) with ⟨r, tm'⟩
      have h' : activeTabValid tm' = true := by
        have hp := killTerminal_preserves_activeTabValid tm t.id (envs i) h
        rw [hk] at hp
        exact hp
      unfold killLoop
      rw [hk]
      cases r with
      | none => exact ih (i + 1) tm' h'
      | some e => exact ih (i + 1) tm' h'

/-- The spawn loop preserves the active-tab wellformedness condition. -/
theorem spawnLoop_preserves_activeTabValid (envs : Nat → SpawnEnv) :
    ∀ (d i : Nat) (tm : TMState), activeTabValid tm = true →
      activeTabValid (spawnLoop envs d i tm).2 = true := by
  intro d
  induction d with
  | zero => intro i tm h; exact h
  | succ d ih =>
      intro i tm h
      rcases hs : spawnTerminal tm ("Terminal " ++ toString (i + 1)) "/bin/bash" ""
          (envs i) with ⟨r, tm'⟩
      have h' : activeTabValid tm' = true := by
        have hp := spawnTerminal_preserves_activeTabValid tm
          ("Terminal " ++ toString (i + 1)) "/bin/bash" "" (envs i) h
        rw [hs] at hp
        exact hp
      unfold spawnLoop
      rw [hs]
      cases r with
      | error e => exact h'
      | ok t => exact ih (i + 1) tm' h'

/-- The layout-persistence step preserves the active-tab wellformedness
condition (it only writes the store). -/
theorem updateLayoutDB_preserves_activeTabValid (tm : TMState) (lt : String)
    (k : Nat) (ok : Bool) (h : activeTabValid tm = true) :
    activeTabValid (updateLayoutDB tm lt k ok).2 = true := by
  cases ok <;> exact h

/-- `ApplyLayout` (over any snapshot) preserves the active-tab
wellformedness condition. -/
theorem applyLayoutAux_preserves_activeTabValid (tm : TMState) (lt : String)
    (snap : List Terminal) (env : LayoutEnv) (h : activeTabValid tm = true) :
    activeTabValid (applyLayoutAux tm lt snap env).2 = true := by
  simp only [applyLayoutAux]
  by_cases h1 : getTerminalCountForLayout lt > tm.terminals.length
  · rw [if_pos h1]
    rcases hs : spawnLoop env.spawnEnvs
        (getTerminalCountForLayout lt - tm.terminals.length)
        tm.terminals.length tm with ⟨r, tm₁⟩
    have h' : activeTabValid tm₁ = true := by
      have hp := spawnLoop_preserves_activeTabValid env.spawnEnvs
        (getTerminalCountForLayout lt - tm.terminals.length)
        tm.terminals.length tm h
      rw [hs] at hp
      exact hp
    cases r with
    | some e => exact h'
    | none =>
        exact updateLayoutDB_preserves_activeTabValid tm₁ lt
          (getTerminalCountForLayout lt) env.dbLayoutOk h'
  · rw [if_neg h1]
    by_cases h2 : getTerminalCountForLayout lt < tm.terminals.length
    · rw [if_pos h2]
      exact updateLayoutDB_preserves_activeTabValid _ lt
        (getTerminalCountForLayout lt) env.dbLayoutOk
        (killLoop_preserves_activeTabValid env.killEnvs
          (snap.drop (getTerminalCountForLayout lt))
          (getTerminalCountForLayout lt) tm h)
    · rw [if_neg h2]
      exact updateLayoutDB_preserves_activeTabValid tm lt
        (getTerminalCountForLayout lt) env.dbLayoutOk h

/-- C6 counterexample: `SetActiveTabID` performs no validation, so on a
manager whose single live session has id 1 it happily sets the active tab to
the non-live id 99, breaking the claimed invariant. -/
theorem setActiveTabID_breaks_invariant_cex :
    activeTabValid tmOneSession = true ∧
    activeTabValid (setActiveTabID tmOneSession 99) = false := by
  decide

/-- C6 amended: the active-tab invariant (zero or a live session's id) is
preserved by `SpawnTerminal`, `KillTerminal`, `Shutdown` and `ApplyLayout`
— in particular killing the active session reassigns the active tab to a
remaining live session or to zero — but `SetActiveTabID` performs no
validation and preserves the invariant only when the caller passes zero or
a live session's id. -/
theorem activeTab_invariant_preserved (tm : TMState)
    (title shell workingDir lt : String) (senv : SpawnEnv) (id nid : Nat)
    (kenv : KillEnv) (kenvs : Nat → KillEnv) (lenv : LayoutEnv)
    (h : activeTabValid tm = true) :
    activeTabValid (spawnTerminal tm title shell workingDir senv).2 = true ∧
    activeTabValid (killTerminal tm id kenv).2 = true ∧
    activeTabValid (shutdown tm kenvs).2 = true ∧
    activeTabValid (applyLayout tm lt lenv).2 = true ∧
    ((nid = 0 ∨ (tm.terminals.any (fun t => t.id == nid)) = true) →
      activeTabValid (setActiveTabID tm nid) = true) := by
  refine ⟨spawnTerminal_preserves_activeTabValid tm title shell workingDir senv h,
    killTerminal_preserves_activeTabValid tm id kenv h,
    killLoop_preserves_activeTabValid kenvs tm.terminals 0 tm h,
    applyLayoutAux_preserves_activeTabValid tm lt (getTerminals tm) lenv h, ?_⟩
  intro hn
  unfold activeTabValid setActiveTabID
  rcases hn with h0 | hany
  · simp [h0]
  · simp only []
    rw [Bool.or_eq_true]
    right
    exact hany

/-- C6 amended witness: all five operations applied to the one-session
manager keep the invariant; `SetActiveTabID` is exercised with the live
id 1. -/
theorem activeTab_invariant_preserved_witness :
    activeTabValid tmOneSession = true ∧
    (activeTabValid (spawnTerminal tmOneSession "t" "/bin/bash" "" envOkW).2 = true ∧
      activeTabValid (killTerminal tmOneSession 1 kEnvW).2 = true ∧
      activeTabValid (shutdown tmOneSession (fun _ => kEnvW)).2 = true ∧
      activeTabValid (applyLayout tmOneSession "grid" layoutEnvW).2 = true ∧
      ((1 = 0 ∨ (tmOneSession.terminals.any (fun t => t.id == 1)) = true) →
        activeTabValid (setActiveTabID tmOneSession 1) = true)) :=
  ⟨by decide,
    activeTab_invariant_preserved tmOneSession "t" "/bin/bash" "" "grid" envOkW 1 1
      kEnvW (fun _ => kEnvW) layoutEnvW (by decide)⟩

/-- C8 counterexample: in an `ApplyLayout("horizontal")` run over a snapshot
listing session 3 (killed by a concurrent caller after the snapshot was
taken), the kill loop's `KillTerminal(3)` fails with `TerminalNotFound` —
the loop's error log is exactly that failure — yet `ApplyLayout` returns no
error: terminal.go:237-239 logs kill errors and continues. -/
theorem applyLayout_kill_failure_swallowed_cex :
    (killLoop layoutEnvW.killEnvs (snapStale.drop 2) 2 tmThree).1 =
      [TMErr.terminalNotFound] ∧
    (applyLayoutAux tmThree "horizontal" snapStale layoutEnvW).1 = none := by
  decide

/-- C8 amended: a `KillTerminal` failure inside `ApplyLayout`'s kill loop is
logged and discarded, never surfaced: in the kill branch the returned error
is determined solely by the layout-persistence step, and sessions already
destroyed by the loop stay destroyed (no rollback). -/
theorem applyLayout_kill_errors_not_surfaced (tm : TMState) (lt : String)
    (snap : List Terminal) (env : LayoutEnv)
    (hk : getTerminalCountForLayout lt < tm.terminals.length) :
    (applyLayoutAux tm lt snap env).1 =
      (if env.dbLayoutOk then none else some TMErr.persistenceFailed) ∧
    (applyLayoutAux tm lt snap env).2.terminals =
      (killLoop env.killEnvs (snap.drop (getTerminalCountForLayout lt))
        (getTerminalCountForLayout lt) tm).2.terminals := by
  have h1 : ¬ getTerminalCountForLayout lt > tm.terminals.length := by omega
  simp only [applyLayoutAux]
  rw [if_neg h1, if_pos hk]
  cases hok : env.dbLayoutOk with
  | false => simp [updateLayoutDB, hok]
  | true => simp [updateLayoutDB, hok]

/-- C8 amended witness: the stale-snapshot run returns success while its
kill loop failed, and the surviving sessions are the kill loop's result. -/
theorem applyLayout_kill_errors_not_surfaced_witness :
    getTerminalCountForLayout "horizontal" < tmThree.terminals.length ∧
    ((applyLayoutAux tmThree "horizontal" snapStale layoutEnvW).1 =
        (if layoutEnvW.dbLayoutOk then none else some TMErr.persistenceFailed) ∧
      (applyLayoutAux tmThree "horizontal" snapStale layoutEnvW).2.terminals =
        (killLoop layoutEnvW.killEnvs
          (snapStale.drop (getTerminalCountForLayout "horizontal"))
          (getTerminalCountForLayout "horizontal") tmThree).2.terminals) :=
  ⟨by decide,
    applyLayout_kill_errors_not_surfaced tmThree "horizontal" snapStale layoutEnvW
      (by decide)⟩

/-- The layout-persistence step: the returned error, the non-store state and
the session rows do not depend on the layout string, and on success the
stored layout row is the given string with the given count. -/
theorem updateLayoutDB_parts (tm : TMState) (s₁ s₂ : String) (k : Nat) (ok : Bool) :
    (updateLayoutDB tm s₁ k ok).1 = (updateLayoutDB tm s₂ k ok).1 ∧
    (updateLayoutDB tm s₁ k ok).2.terminals = (updateLayoutDB tm s₂ k ok).2.terminals ∧
    (updateLayoutDB tm s₁ k ok).2.pool = (updateLayoutDB tm s₂ k ok).2.pool ∧
    (updateLayoutDB tm s₁ k ok).2.db.sessions = (updateLayoutDB tm s₂ k ok).2.db.sessions ∧
    ((updateLayoutDB tm s₁ k ok).1 = none →
      (updateLayoutDB tm s₁ k ok).2.db.layout = some (s₁, k)) := by
  cases ok <;> simp [updateLayoutDB]

/-- C10: every layout string other than horizontal, vertical and grid maps
to a target count of 2, so `ApplyLayout` on an unrecognized type behaves
exactly like a 2-session layout — same result, sessions, ports and session
rows as `ApplyLayout("horizontal")` — and on success persists the
unrecognized string itself with count 2 instead of returning an
invalid-layout error. -/
theorem unknown_layout_defaults_to_two (s : String) (tm : TMState) (env : LayoutEnv)
    (h1 : s ≠ "horizontal") (h2 : s ≠ "vertical") (h3 : s ≠ "grid") :
    getTerminalCountForLayout s = 2 ∧
    (applyLayout tm s env).1 = (applyLayout tm "horizontal" env).1 ∧
    (applyLayout tm s env).2.terminals = (applyLayout tm "horizontal" env).2.terminals ∧
    (applyLayout tm s env).2.pool = (applyLayout tm "horizontal" env).2.pool ∧
    (applyLayout tm s env).2.db.sessions =
      (applyLayout tm "horizontal" env).2.db.sessions ∧
    ((applyLayout tm s env).1 = none →
      (applyLayout tm s env).2.db.layout = some (s, 2)) := by
  have hc : getTerminalCountForLayout s = 2 := by
    unfold getTerminalCountForLayout
    rw [if_neg h1, if_neg h2, if_neg h3]
  have hh : getTerminalCountForLayout "horizontal" = 2 := rfl
  refine ⟨hc, ?_⟩
  simp only [applyLayout, applyLayoutAux, getTerminals]
  rw [hc, hh]
  by_cases hgt : 2 > tm.terminals.length
  · simp only [if_pos hgt]
    rcases hs : spawnLoop env.spawnEnvs (2 - tm.terminals.length)
        tm.terminals.length tm with ⟨r, tm₁⟩
    cases r with
    | some e =>
        refine ⟨rfl, rfl, rfl, rfl, ?_⟩
        intro hcontra
        exact Option.noConfusion hcontra
    | none => exact updateLayoutDB_parts tm₁ s "horizontal" 2 env.dbLayoutOk
  · simp only [if_neg hgt]
    by_cases hlt : 2 < tm.terminals.length
    · simp only [if_pos hlt]
      exact updateLayoutDB_parts _ s "horizontal" 2 env.dbLayoutOk
    · simp only [if_neg hlt]
      exact updateLayoutDB_parts tm s "horizontal" 2 env.dbLayoutOk

/-- C10 witness: the unrecognized layout string behaves like a 2-session
layout on the empty manager and persists itself with count 2. -/
theorem unknown_layout_defaults_to_two_witness :
    ("stacked" ≠ "horizontal" ∧ "stacked" ≠ "vertical" ∧ "stacked" ≠ "grid") ∧
    (getTerminalCountForLayout "stacked" = 2 ∧
      (applyLayout newTerminalManager "stacked" layoutEnvW).1 =
        (applyLayout newTerminalManager "horizontal" layoutEnvW).1 ∧
      (applyLayout newTerminalManager "stacked" layoutEnvW).2.terminals =
        (applyLayout newTerminalManager "horizontal" layoutEnvW).2.terminals ∧
      (applyLayout newTerminalManager "stacked" layoutEnvW).2.pool =
        (applyLayout newTerminalManager "horizontal" layoutEnvW).2.pool ∧
      (applyLayout newTerminalManager "stacked" layoutEnvW).2.db.sessions =
        (applyLayout newTerminalManager "horizontal" layoutEnvW).2.db.sessions ∧
      ((applyLayout newTerminalManager "stacked" layoutEnvW).1 = none →
        (applyLayout newTerminalManager "stacked" layoutEnvW).2.db.layout =
          some ("stacked", 2))) :=
  ⟨⟨by decide, by decide, by decide⟩,
    unknown_layout_defaults_to_two "stacked" newTerminalManager layoutEnvW
      (by decide) (by decide) (by decide)⟩

/-- `find?` skips a prefix on which the predicate is false. -/
theorem find?_append_right {α : Type} (p : α → Bool) :
    ∀ (A B : List α), (∀ a ∈ A, p a = false) →
      (A ++ B).find? p = B.find? p := by
  intro A
  induction A with
  | nil => intro B _; rfl
  | cons a A ih =>
      intro B h
      have ha : p a = false := h a (List.mem_cons_self a A)
      simp only [List.cons_append, List.find?, ha]
      exact ih B (fun x hx => h x (List.mem_cons_of_mem a hx))

/-- `KillTerminal` never touches the stored layout row. -/
theorem killTerminal_db_layout (tm : TMState) (id : Nat) (env : KillEnv) :
    (killTerminal tm id env).2.db.layout = tm.db.layout := by
  unfold killTerminal
  cases hf : tm.terminals.find? (fun u => u.id == id) with
  | none => rfl
  | some t =>
      simp only []
      split <;> rfl

/-- The kill loop of `ApplyLayout` run over the suffix `B` of a
duplicate-free live list `A ++ B` kills exactly the sessions of `B`: every
kill succeeds (the error log is empty), the survivors are exactly `A`, and
the stored layout row is untouched. -/
theorem killLoop_removes_suffix (envs : Nat → KillEnv) :
    ∀ (B A : List Terminal) (i : Nat) (tm : TMState),
      tm.terminals = A ++ B →
      (A ++ B).Pairwise (fun s t => s.id ≠ t.id) →
      (killLoop envs B i tm).1 = [] ∧
      (killLoop envs B i tm).2.terminals = A ∧
      (killLoop envs B i tm).2.db.layout = tm.db.layout := by
  intro B
  induction B with
  | nil =>
      intro A i tm hterm _
      refine ⟨rfl, ?_, rfl⟩
      show tm.terminals = A
      rw [hterm, List.append_nil]
  | cons b rest ih =>
      intro A i tm hterm hpw
      have hsplit := List.pairwise_append.mp hpw
      have hA : ∀ a ∈ A, a.id ≠ b.id := by
        intro a ha
        exact hsplit.2.2 a ha b (List.mem_cons_self b rest)
      have hrest : ∀ t ∈ rest, b.id ≠ t.id :=
        (List.pairwise_cons.mp hsplit.2.1).1
      have hfind : tm.terminals.find? (fun u => u.id == b.id) = some b := by
        rw [hterm]
        rw [find?_append_right _ A (b :: rest) ?hfalse]
        case hfalse =>
          intro a ha
          simp only [beq_eq_false_iff_ne, ne_eq]
          exact hA a ha
        simp [List.find?]
      have hfilter : tm.terminals.filter (fun u => u.id != b.id) = A ++ rest := by
        rw [hterm, List.filter_append]
        have h1 : A.filter (fun u => u.id != b.id) = A := by
          apply List.filter_eq_self.mpr
          intro a ha
          simp only [bne_iff_ne, ne_eq, decide_eq_true_eq]
          exact hA a ha
        have h2 : (b :: rest).filter (fun u => u.id != b.id) = rest := by
          simp only [List.filter, bne_self_eq_false]
          apply List.filter_eq_self.mpr
          intro t ht
          simp only [bne_iff_ne, ne_eq, decide_eq_true_eq]
          exact fun he => (hrest t ht) he.symm
        rw [h1, h2]
      have hpw' : (A ++ rest).Pairwise (fun s t => s.id ≠ t.id) := by
        refine List.Pairwise.sublist ?_ hpw
        exact List.Sublist.append_left (List.sublist_cons_self b rest) A
      have estep : killLoop envs (b :: rest) i tm =
          killLoop envs rest (i + 1) (killTerminal tm b.id (envs i)).2 := by
        simp only [killLoop]
        rw [killTerminal_found tm b.id (envs i) b hfind]
      have hterm2 : (killTerminal tm b.id (envs i)).2.terminals = A ++ rest := by
        rw [killTerminal_found tm b.id (envs i) b hfind]
        exact hfilter
      obtain ⟨ih1, ih2, ih3⟩ := ih A (i + 1) (killTerminal tm b.id (envs i)).2
        hterm2 hpw'
      rw [estep]
      exact ⟨ih1, ih2, ih3.trans (killTerminal_db_layout tm b.id (envs i))⟩

/-- `spawnTerminal_success_eq` restated for an environment given by its
observed field values. -/
theorem spawnTerminal_success_eq' (tm : TMState) (title shell workingDir : String)
    (env : SpawnEnv) (p : Nat) (c : String)
    (hl : tm.terminals.length < tm.maxTerminals)
    (hp : env.osPort = some p) (hc : env.cred = some c) (hb : env.backendOk = true) :
    spawnTerminal tm title shell workingDir env =
      (Except.ok (spawnedTerminal tm title shell workingDir p c env.dbSave env.now),
        { tm with
          pool := (tm.pool.allocate (some p)).2,
          db := spawnedDB tm.db title p env.dbSave,
          nextID := tm.nextID + 1,
          terminals := tm.terminals ++
            [spawnedTerminal tm title shell workingDir p c env.dbSave env.now],
          activeTabID :=
            if tm.activeTabID = 0 ∨ (tm.terminals ++
                [spawnedTerminal tm title shell workingDir p c env.dbSave env.now]).length = 1
            then tm.nextID else tm.activeTabID }) := by
  rcases he : env with ⟨op, cr, bo, ds, nw⟩
  rw [he] at hp hc hb
  have hp' : op = some p := hp
  have hc' : cr = some c := hc
  have hb' : bo = true := hb
  subst hp'
  subst hc'
  subst hb'
  exact spawnTerminal_success_eq tm title shell workingDir p c ds nw hl

/-- The spawn loop of `ApplyLayout`, started at index `i` on a manager with
`i` live sessions, with `i + d` within capacity and every needed external
acquisition succeeding, spawns exactly `d` sessions: no error, the original
sessions stay as a prefix, the new sessions carry the auto-generated titles
`"Terminal <i+1>" .. "Terminal <i+d>"`, and the stored layout row is
untouched. -/
theorem spawnLoop_success (envs : Nat → SpawnEnv) :
    ∀ (d i : Nat) (tm : TMState),
      tm.terminals.length = i →
      i + d ≤ tm.maxTerminals →
      (∀ j, i ≤ j → j < i + d → (envs j).succeeds = true) →
      (spawnLoop envs d i tm).1 = none ∧
      (spawnLoop envs d i tm).2.terminals.map Terminal.title =
        tm.terminals.map Terminal.title ++
          (List.range d).map (fun j => "Terminal " ++ toString (i + j + 1)) ∧
      (spawnLoop envs d i tm).2.terminals.length = i + d ∧
      (spawnLoop envs d i tm).2.db.layout = tm.db.layout ∧
      (spawnLoop envs d i tm).2.terminals.take i = tm.terminals ∧
      (spawnLoop envs d i tm).2.maxTerminals = tm.maxTerminals := by
  intro d
  induction d with
  | zero =>
      intro i tm hlen hmax hsucc
      refine ⟨rfl, by simp [spawnLoop], by simpa using hlen, rfl, ?_, rfl⟩
      show tm.terminals.take i = tm.terminals
      rw [← hlen]
      exact List.take_length tm.terminals
  | succ d ih =>
      intro i tm hlen hmax hsucc
      have hs := hsucc i (Nat.le_refl i) (by omega)
      simp only [SpawnEnv.succeeds, Bool.and_eq_true, Option.isSome_iff_exists] at hs
      obtain ⟨⟨⟨p, hp⟩, ⟨c, hc⟩⟩, hb⟩ := hs
      have hlarge : tm.terminals.length < tm.maxTerminals := by omega
      have hred := spawnTerminal_success_eq' tm ("Terminal " ++ toString (i + 1))
        "/bin/bash" "" (envs i) p c hlarge hp hc hb
      have hS2 := congrArg Prod.snd hred
      have estep : spawnLoop envs (d + 1) i tm =
          spawnLoop envs d (i + 1)
            (spawnTerminal tm ("Terminal " ++ toString (i + 1)) "/bin/bash" ""
              (envs i)).2 := by
        simp only [spawnLoop]
        rw [hred]
      have f1 : (spawnTerminal tm ("Terminal " ++ toString (i + 1)) "/bin/bash" ""
            (envs i)).2.terminals =
          tm.terminals ++ [spawnedTerminal tm ("Terminal " ++ toString (i + 1))
            "/bin/bash" "" p c (envs i).dbSave (envs i).now] := by
        rw [hS2]
      have f2 : (spawnTerminal tm ("Terminal " ++ toString (i + 1)) "/bin/bash" ""
          (envs i)).2.terminals.length = i + 1 := by
        rw [f1]
        simp [hlen]
      have f3 : (spawnTerminal tm ("Terminal " ++ toString (i + 1)) "/bin/bash" ""
          (envs i)).2.maxTerminals = tm.maxTerminals := by
        rw [hS2]
      have f4 : (spawnTerminal tm ("Terminal " ++ toString (i + 1)) "/bin/bash" ""
          (envs i)).2.db.layout = tm.db.layout := by
        rw [hS2]
        show (spawnedDB tm.db ("Terminal " ++ toString (i + 1)) p
          (envs i).dbSave).layout = tm.db.layout
        cases hds : (envs i).dbSave <;> simp [spawnedDB, hds]
      have fmax : (i + 1) + d ≤ (spawnTerminal tm ("Terminal " ++ toString (i + 1))
          "/bin/bash" "" (envs i)).2.maxTerminals := by
        rw [f3]
        omega
      have fsucc : ∀ j, i + 1 ≤ j → j < (i + 1) + d → (envs j).succeeds = true := by
        intro j h1 h2
        exact hsucc j (by omega) (by omega)
      obtain ⟨ih1, ih2, ih3, ih4, ih5, ih6⟩ := ih (i + 1)
        (spawnTerminal tm ("Terminal " ++ toString (i + 1)) "/bin/bash" ""
          (envs i)).2 f2 fmax fsucc
      rw [estep]
      refine ⟨ih1, ?_, ?_, ?_, ?_, ?_⟩
      · rw [ih2, f1, List.map_append, List.append_assoc]
        congr 1
        rw [List.range_succ_eq_map]
        simp only [List.map_cons, List.map_nil, List.map_map, List.nil_append,
          List.cons_append]
        congr 1
        apply List.map_congr_left
        intro j _
        show "Terminal " ++ toString (i + 1 + j + 1) =
          "Terminal " ++ toString (i + (j + 1) + 1)
        exact congrArg (fun n => "Terminal " ++ toString n) (by omega)
      · rw [ih3]
        omega
      · rw [ih4, f4]
      · have e1 : ((spawnLoop envs d (i + 1)
              (spawnTerminal tm ("Terminal " ++ toString (i + 1)) "/bin/bash" ""
                (envs i)).2).2.terminals.take (i + 1)).take i =
            (spawnLoop envs d (i + 1)
              (spawnTerminal tm ("Terminal " ++ toString (i + 1)) "/bin/bash" ""
                (envs i)).2).2.terminals.take i := by
          rw [List.take_take]
          congr 1
          omega
        rw [← e1, ih5, f1, List.take_append_of_le_length (by omega), ← hlen,
          List.take_length]
      · rw [ih6, f3]

/-- Reduction of the layout-persistence step when the store write succeeds. -/
theorem updateLayoutDB_ok (tm : TMState) (lt : String) (k : Nat) :
    updateLayoutDB tm lt k true =
      (none, { tm with db := { tm.db with layout := some (lt, k) } }) := rfl

/-- C5: with a live count of n, a target count of k for the requested
layout, every individual spawn and kill succeeding (all needed external
acquisitions succeed, k is within capacity, live ids are distinct) and the
store write succeeding, `ApplyLayout` returns no error, leaves exactly k
live sessions, persists the layout type with count k, keeps the first
min(k,n) original sessions (killing the excess from the end of the
enumeration when n > k) and gives the k - n spawned sessions the
auto-generated titles "Terminal n+1" .. "Terminal k". -/
theorem applyLayout_success_spec (tm : TMState) (lt : String) (env : LayoutEnv)
    (hmax : getTerminalCountForLayout lt ≤ tm.maxTerminals)
    (hids : tm.terminals.Pairwise (fun s t => s.id ≠ t.id))
    (hsp : ∀ j, tm.terminals.length ≤ j → j < getTerminalCountForLayout lt →
      (env.spawnEnvs j).succeeds = true)
    (hdb : env.dbLayoutOk = true) :
    (applyLayout tm lt env).1 = none ∧
    (applyLayout tm lt env).2.terminals.length = getTerminalCountForLayout lt ∧
    (applyLayout tm lt env).2.db.layout = some (lt, getTerminalCountForLayout lt) ∧
    (applyLayout tm lt env).2.terminals.map Terminal.title =
      (tm.terminals.take (getTerminalCountForLayout lt)).map Terminal.title ++
        (List.range (getTerminalCountForLayout lt - tm.terminals.length)).map
          (fun j => "Terminal " ++ toString (tm.terminals.length + j + 1)) ∧
    (applyLayout tm lt env).2.terminals.take tm.terminals.length =
      tm.terminals.take (getTerminalCountForLayout lt) := by
  simp only [applyLayout, applyLayoutAux, getTerminals]
  by_cases hgt : getTerminalCountForLayout lt > tm.terminals.length
  · simp only [if_pos hgt]
    obtain ⟨s1, s2, s3, s4, s5, s6⟩ := spawnLoop_success env.spawnEnvs
      (getTerminalCountForLayout lt - tm.terminals.length) tm.terminals.length tm
      rfl (by omega) (fun j h1 h2 => hsp j h1 (by omega))
    rcases hsl : spawnLoop env.spawnEnvs
        (getTerminalCountForLayout lt - tm.terminals.length)
        tm.terminals.length tm with ⟨r, tm₁⟩
    rw [hsl] at s1 s2 s3 s4 s5 s6
    have hr : r = none := s1
    subst hr
    have htake : tm.terminals.take (getTerminalCountForLayout lt) = tm.terminals :=
      List.take_of_length_le (by omega)
    rw [hdb]
    simp only [updateLayoutDB_ok]
    refine ⟨trivial, ?_, trivial, ?_, ?_⟩
    · show tm₁.terminals.length = getTerminalCountForLayout lt
      have : tm₁.terminals.length =
          tm.terminals.length + (getTerminalCountForLayout lt - tm.terminals.length) := s3
      omega
    · show tm₁.terminals.map Terminal.title = _
      rw [htake]
      exact s2
    · show tm₁.terminals.take tm.terminals.length = _
      rw [htake]
      exact s5
  · simp only [if_neg hgt]
    by_cases hlt : getTerminalCountForLayout lt < tm.terminals.length
    · simp only [if_pos hlt]
      obtain ⟨k1, k2, k3⟩ := killLoop_removes_suffix env.killEnvs
        (tm.terminals.drop (getTerminalCountForLayout lt))
        (tm.terminals.take (getTerminalCountForLayout lt))
        (getTerminalCountForLayout lt) tm
        (List.take_append_drop _ _).symm
        (by rw [List.take_append_drop]; exact hids)
      rw [hdb]
      simp only [updateLayoutDB_ok]
      refine ⟨trivial, ?_, trivial, ?_, ?_⟩
      · show (killLoop _ _ _ _).2.terminals.length = _
        rw [k2, List.length_take]
        omega
      · show (killLoop _ _ _ _).2.terminals.map Terminal.title = _
        rw [k2]
        have h0 : getTerminalCountForLayout lt - tm.terminals.length = 0 := by omega
        rw [h0]
        simp
      · show (killLoop _ _ _ _).2.terminals.take tm.terminals.length = _
        rw [k2, List.take_take]
        congr 1
        omega
    · simp only [if_neg hlt]
      have heq : getTerminalCountForLayout lt = tm.terminals.length := by omega
      rw [hdb]
      simp only [updateLayoutDB_ok]
      refine ⟨trivial, ?_, trivial, ?_, ?_⟩
      · show tm.terminals.length = _
        omega
      · show tm.terminals.map Terminal.title = _
        rw [heq, List.take_length]
        have h0 : tm.terminals.length - tm.terminals.length = 0 := by omega
        rw [h0]
        simp
      · show tm.terminals.take tm.terminals.length = _
        rw [heq]

/-- C5 witness: `ApplyLayout("grid")` on the fresh (empty) manager succeeds,
leaves exactly 4 sessions titled "Terminal 1".."Terminal 4" and persists
("grid", 4). -/
theorem applyLayout_success_spec_witness :
    getTerminalCountForLayout "grid" ≤ newTerminalManager.maxTerminals ∧
    layoutEnvW.dbLayoutOk = true ∧
    ((applyLayout newTerminalManager "grid" layoutEnvW).1 = none ∧
      (applyLayout newTerminalManager "grid" layoutEnvW).2.terminals.length =
        getTerminalCountForLayout "grid" ∧
      (applyLayout newTerminalManager "grid" layoutEnvW).2.db.layout =
        some ("grid", getTerminalCountForLayout "grid") ∧
      (applyLayout newTerminalManager "grid" layoutEnvW).2.terminals.map
          Terminal.title =
        (newTerminalManager.terminals.take (getTerminalCountForLayout "grid")).map
            Terminal.title ++
          (List.range (getTerminalCountForLayout "grid" -
              newTerminalManager.terminals.length)).map
            (fun j => "Terminal " ++
              toString (newTerminalManager.terminals.length + j + 1)) ∧
      (applyLayout newTerminalManager "grid" layoutEnvW).2.terminals.take
          newTerminalManager.terminals.length =
        newTerminalManager.terminals.take (getTerminalCountForLayout "grid")) :=
  ⟨by decide, by decide,
    applyLayout_success_spec newTerminalManager "grid" layoutEnvW (by decide)
      List.Pairwise.nil
      (by
        intro j h1 h2
        have h2' : j < 4 := h2
        interval_cases j <;> decide)
      (by decide)⟩
